import Mathlib

/-!
Verification development for the kubernetes-mcp-server tool-serving runtime.

The Go sources are shallowly embedded: pure functions become Lean
functions, fallible operations return `Except`, and the external cluster
queries are passed in as function parameters. Free-text tool descriptions
are elided from the embedding; tool identity (name) and the filtering
hints (title, readOnlyHint, destructiveHint, openWorldHint) are kept.
-/

namespace KubernetesMcp

/-- Tool hints carried by a tool descriptor (mcp.Tool.Annotations in the
Go sources): optional title, read-only hint, destructive hint and
open-world hint. In Go each hint is a nullable pointer to bool; here it
is an `Option Bool`. -/
structure ToolHints where
  title : Option String := none
  readOnlyHint : Option Bool := none
  destructiveHint : Option Bool := none
  openWorldHint : Option Bool := none
deriving Repr, DecidableEq

/-- A tool descriptor (server.ServerTool / mcp.Tool): a unique name plus
hints. Handlers and free-text descriptions are elided. -/
structure Tool where
  name : String := ""
  hints : ToolHints := {}
deriving Repr, DecidableEq

/-- StaticConfig (pkg/config): the immutable-per-run settings that the
command bootstrap loads from the config file and command-line flags. -/
structure StaticConfig where
  LogLevel : Int := 0
  SSEPort : Int := 0
  HTTPPort : Int := 0
  SSEBaseURL : String := ""
  KubeConfig : String := ""
  ListOutput : String := ""
  ReadOnly : Bool := false
  DisableDestructive : Bool := false
  EnabledTools : List String := []
  DisabledTools : List String := []
deriving Repr, DecidableEq

/-- Configuration (pkg/mcp): wraps the static configuration consumed by
the visibility filter. The profile and output-format members are not
needed by the filter and are elided. -/
structure Configuration where
  staticConfig : StaticConfig := {}
deriving Repr, DecidableEq

/-- Modelled from the spec: `Configuration.isToolApplicable` is declared
and exercised by the test file in the sources but its body is not under
src/. The definition follows the spec visibility-filter rules 1-5 in
order: (1) a non-empty enabled-tool set is an exclusive allow-list;
(2) membership in the disabled-tool set excludes; (3) read-only mode
excludes tools whose read-only hint is not true; (4) disable-destructive
mode excludes tools whose destructive hint is true unless their
read-only hint is true (read-only hint takes precedence); (5) otherwise
applicable. Per the spec data model, a missing read-only hint defaults
to false and a missing destructive hint defaults to true. -/
def isToolApplicable (c : Configuration) (t : Tool) : Bool :=
  if !c.staticConfig.EnabledTools.isEmpty then
    c.staticConfig.EnabledTools.contains t.name
  else if c.staticConfig.DisabledTools.contains t.name then
    false
  else if c.staticConfig.ReadOnly && !(t.hints.readOnlyHint.getD false) then
    false
  else if c.staticConfig.DisableDestructive && !(t.hints.readOnlyHint.getD false)
      && t.hints.destructiveHint.getD true then
    false
  else
    true

/-- The sequence of configuration/tool pairs exercised by
TestIsToolApplicableReadOnly in the sources, with the outcome the test
expects for each pair. -/
def isToolApplicableTestVectors : List (Configuration × Tool × Bool) :=
  [ (⟨{ ReadOnly := true }⟩, { hints := { readOnlyHint := some true } }, true),
    (⟨{ ReadOnly := true }⟩, { hints := { readOnlyHint := some false } }, false),
    (⟨{ DisableDestructive := true }⟩, { hints := { destructiveHint := some false } }, true),
    (⟨{ DisableDestructive := true }⟩,
      { hints := { destructiveHint := some true, readOnlyHint := some true } }, true),
    (⟨{ DisableDestructive := true }⟩, { hints := { destructiveHint := some true } }, false),
    (⟨{ EnabledTools := ["namespaces_list"] }⟩, { name := "namespaces_list" }, true),
    (⟨{ DisabledTools := ["namespaces_list"] }⟩, { name := "namespaces_list" }, false) ]

/-- Sanity check: the modelled visibility filter reproduces every vector
of TestIsToolApplicableReadOnly from the sources. -/
theorem isToolApplicable_matches_test_vectors :
    ∀ v ∈ isToolApplicableTestVectors, isToolApplicable v.1 v.2.1 = v.2.2 := by
  decide

/-- The cluster_version_get tool descriptor from initOpenShift
(pkg/mcp/openshift.go). -/
def clusterVersionGetTool : Tool :=
  { name := "cluster_version_get",
    hints := { title := some "OpenShift: Cluster Version",
               readOnlyHint := some true, destructiveHint := some false,
               openWorldHint := some true } }

/-- The cluster_available_updates_list tool descriptor from initOpenShift
(pkg/mcp/openshift.go). -/
def clusterAvailableUpdatesListTool : Tool :=
  { name := "cluster_available_updates_list",
    hints := { title := some "OpenShift: Available Updates",
               readOnlyHint := some true, destructiveHint := some false,
               openWorldHint := some true } }

/-- The cluster_capabilities_get tool descriptor from initOpenShift
(pkg/mcp/openshift.go). -/
def clusterCapabilitiesGetTool : Tool :=
  { name := "cluster_capabilities_get",
    hints := { title := some "OpenShift: Capabilities",
               readOnlyHint := some true, destructiveHint := some false,
               openWorldHint := some true } }

/-- The cluster_update_history_list tool descriptor from initOpenShift
(pkg/mcp/openshift.go). -/
def clusterUpdateHistoryListTool : Tool :=
  { name := "cluster_update_history_list",
    hints := { title := some "OpenShift: Update History",
               readOnlyHint := some true, destructiveHint := some false,
               openWorldHint := some true } }

/-- The fixed list of OpenShift tools returned by initOpenShift when the
cluster advertises the OpenShift extension API (pkg/mcp/openshift.go). -/
def openShiftTools : List Tool :=
  [clusterVersionGetTool, clusterAvailableUpdatesListTool,
   clusterCapabilitiesGetTool, clusterUpdateHistoryListTool]

/-- Server.initOpenShift (pkg/mcp/openshift.go): if the capability probe
reports that the cluster is not OpenShift it returns the empty list,
otherwise the fixed list of OpenShift tools. The Go return type carries
no error channel, so neither does the embedding. -/
def initOpenShift (isOpenShift : Bool) : List Tool :=
  if !isOpenShift then [] else openShiftTools

/-- The oc_cli_exec tool descriptor from initOcCli
(pkg/mcp/openshift.go). -/
def ocCliExecTool : Tool :=
  { name := "oc_cli_exec",
    hints := { title := some "OpenShift: Execute OC Command",
               readOnlyHint := some false, destructiveHint := some true,
               openWorldHint := some true } }

/-- Server.initOcCli (pkg/mcp/openshift.go): always contributes the
single oc_cli_exec tool. -/
def initOcCli : List Tool := [ocCliExecTool]

/-- Modelled from the spec: the catalog-builder composition (the Server
setup merging provider tool lists is not under src/). Per the spec it
concatenates provider output and applies the visibility filter to each
descriptor. -/
def buildCatalog (c : Configuration) (providerTools : List Tool) : List Tool :=
  providerTools.filter (isToolApplicable c)

/-- The catalog built from the providers present in the sources
(initOpenShift gated by the capability probe outcome, plus initOcCli). -/
def srcCatalog (c : Configuration) (isOpenShift : Bool) : List Tool :=
  buildCatalog c (initOpenShift isOpenShift ++ initOcCli)

/-- C1: with a non-empty enabled-tool set, the visibility predicate is
true exactly when the tool name is a member of that set, and the
disabled-tool set, the read-only flag and the disable-destructive flag
have no effect in this mode. -/
theorem c1_allowlist_mode_is_exclusive (c : Configuration) (t : Tool)
    (h : c.staticConfig.EnabledTools ≠ []) :
    (isToolApplicable c t = true ↔ t.name ∈ c.staticConfig.EnabledTools) ∧
    (∀ (d : List String) (ro dd : Bool),
      isToolApplicable ⟨{ c.staticConfig with DisabledTools := d, ReadOnly := ro, DisableDestructive := dd }⟩ t = isToolApplicable c t) := by
  have hne : c.staticConfig.EnabledTools.isEmpty = false := by simp [h]
  constructor
  · simp [isToolApplicable, hne]
  · intro d ro dd
    simp [isToolApplicable, hne]

/-- C1 witness: with the allow-list {"namespaces_list"}, the tool named
namespaces_list is applicable even though the configuration is also
read-only, lists it as disabled and disables destructive tools. -/
theorem c1_allowlist_mode_is_exclusive_witness :
    isToolApplicable
      ⟨{ EnabledTools := ["namespaces_list"], DisabledTools := ["namespaces_list"],
         ReadOnly := true, DisableDestructive := true }⟩
      { name := "namespaces_list" } = true :=
  ((c1_allowlist_mode_is_exclusive
      ⟨{ EnabledTools := ["namespaces_list"], DisabledTools := ["namespaces_list"],
         ReadOnly := true, DisableDestructive := true }⟩
      { name := "namespaces_list" } (by decide)).1).mpr (by decide)

/-- C2: under disable-destructive mode (empty enabled set, name not
disabled, read-only flag unset), a tool whose destructive hint is true
is applicable exactly when its read-only hint is true. -/
theorem c2_disable_destructive_readonly_precedence (c : Configuration) (t : Tool)
    (hdd : c.staticConfig.DisableDestructive = true)
    (hen : c.staticConfig.EnabledTools = [])
    (hdis : c.staticConfig.DisabledTools.contains t.name = false)
    (hro : c.staticConfig.ReadOnly = false)
    (hd : t.hints.destructiveHint = some true) :
    (isToolApplicable c t = true ↔ t.hints.readOnlyHint = some true) := by
  have hdis' : t.name ∉ c.staticConfig.DisabledTools := by simpa using hdis
  simp [isToolApplicable, hdd, hen, hdis', hro, hd]
  cases hr : t.hints.readOnlyHint with
  | none => simp
  | some b => cases b <;> simp

/-- C2 witness: a tool marked both destructive and read-only is
applicable under disable-destructive mode. -/
theorem c2_disable_destructive_readonly_precedence_witness :
    isToolApplicable ⟨{ DisableDestructive := true }⟩
      { name := "t", hints := { destructiveHint := some true, readOnlyHint := some true } }
      = true :=
  (c2_disable_destructive_readonly_precedence ⟨{ DisableDestructive := true }⟩
      { name := "t", hints := { destructiveHint := some true, readOnlyHint := some true } }
      rfl rfl (by decide) rfl rfl).mpr rfl

/-- C3 counterexample: a read-only configuration whose enabled-tool set
is the allow-list {"oc_cli_exec"} surfaces the oc_cli_exec tool, whose
read-only hint is false and whose destructive hint is true, because the
allow-list rule is exclusive and skips the read-only rule. -/
theorem c3_readonly_catalog_counterexample :
    (⟨{ ReadOnly := true, EnabledTools := ["oc_cli_exec"] }⟩ :
        Configuration).staticConfig.ReadOnly = true ∧
    ocCliExecTool ∈ srcCatalog ⟨{ ReadOnly := true, EnabledTools := ["oc_cli_exec"] }⟩ true ∧
    ocCliExecTool.hints.readOnlyHint ≠ some true ∧
    ocCliExecTool.hints.destructiveHint = some true := by
  decide

/-- C3 amended: for every configuration with the read-only flag set and
an empty enabled-tool set, every tool surfaced in the catalog built from
the providers in the sources has read-only hint true and destructive
hint not true. -/
theorem c3_readonly_catalog_amended (c : Configuration) (osp : Bool) (t : Tool)
    (hro : c.staticConfig.ReadOnly = true)
    (hen : c.staticConfig.EnabledTools = [])
    (ht : t ∈ srcCatalog c osp) :
    t.hints.readOnlyHint = some true ∧ t.hints.destructiveHint ≠ some true := by
  obtain ⟨hmem, happ⟩ := List.mem_filter.mp ht
  cases osp <;>
    simp [initOpenShift, initOcCli, openShiftTools] at hmem
  case false =>
    subst hmem
    simp [isToolApplicable, hen, hro, ocCliExecTool] at happ
  case true =>
    rcases hmem with h | h | h | h | h <;> subst h
    · exact ⟨rfl, by decide⟩
    · exact ⟨rfl, by decide⟩
    · exact ⟨rfl, by decide⟩
    · exact ⟨rfl, by decide⟩
    · simp [isToolApplicable, hen, hro, ocCliExecTool] at happ

/-- C3 amended witness: with only the read-only flag set, the
cluster_version_get tool is in the catalog and satisfies the read-only
invariant. -/
theorem c3_readonly_catalog_amended_witness :
    clusterVersionGetTool.hints.readOnlyHint = some true ∧
    clusterVersionGetTool.hints.destructiveHint ≠ some true :=
  c3_readonly_catalog_amended ⟨{ ReadOnly := true }⟩ true clusterVersionGetTool
    rfl rfl (by decide)

/-- List options passed to the dynamic-client list call
(metav1.ListOptions as used by Manager.IsOpenShift): a result limit and
an optional server-side timeout in seconds (a nullable pointer in Go). -/
structure ListOpts where
  limit : Int
  timeoutSeconds : Option Int
deriving Repr, DecidableEq

/-- The list options Manager.IsOpenShift builds
(pkg/kubernetes/openshift.go): Limit 1 and TimeoutSeconds pointing at
the value 5. -/
def isOpenShiftListOpts : ListOpts := { limit := 1, timeoutSeconds := some 5 }

/-- Manager.IsOpenShift (pkg/kubernetes/openshift.go): lists the
project.openshift.io/v1 projects resource with isOpenShiftListOpts and
returns true exactly when the query succeeds. The query is passed in as
a function so that every possible cluster behaviour is covered. -/
def IsOpenShift (listProjects : ListOpts → Except String Unit) : Bool :=
  match listProjects isOpenShiftListOpts with
  | Except.ok _ => true
  | Except.error _ => false

/-- Whether an Except value is a success. -/
def exceptIsOk {ε α : Type} : Except ε α → Bool
  | Except.ok _ => true
  | Except.error _ => false

/-- C4: the capability probe returns a boolean, returns false whenever
the underlying query fails (it never propagates the error), and issues
its query with a bounded timeout (TimeoutSeconds set to 5). -/
theorem c4_is_openshift_probe_error_is_false :
    (∀ (q : ListOpts → Except String Unit) (e : String),
      q isOpenShiftListOpts = Except.error e → IsOpenShift q = false) ∧
    isOpenShiftListOpts.timeoutSeconds = some 5 := by
  refine ⟨?_, rfl⟩
  intro q e hq
  simp [IsOpenShift, hq]

/-- C4 witness: a query that fails with a concrete error makes the probe
return false, and the options carry the 5 second timeout. -/
theorem c4_is_openshift_probe_error_is_false_witness :
    IsOpenShift (fun _ => Except.error "connection refused") = false ∧
    isOpenShiftListOpts.timeoutSeconds = some 5 :=
  ⟨c4_is_openshift_probe_error_is_false.1
      (fun _ => Except.error "connection refused") "connection refused" rfl,
   c4_is_openshift_probe_error_is_false.2⟩

/-- C5: when the probe reports a non-OpenShift cluster, initOpenShift
contributes zero tools (its return type has no error channel, so no
error can be reported); when the probe reports true it contributes
exactly its fixed list of four OpenShift tools. -/
theorem c5_init_openshift_gated_fixed_list :
    initOpenShift false = [] ∧
    initOpenShift true = [clusterVersionGetTool, clusterAvailableUpdatesListTool,
      clusterCapabilitiesGetTool, clusterUpdateHistoryListTool] ∧
    (initOpenShift true).map Tool.name = ["cluster_version_get",
      "cluster_available_updates_list", "cluster_capabilities_get",
      "cluster_update_history_list"] := by
  refine ⟨rfl, rfl, ?_⟩
  decide

/-- The observable actions MCPServerOptions.Run can take after its
validation steps, in order of occurrence in the source. -/
inductive RunAct where
  | printVersion
  | constructServer
  | serveSse
  | serveHttp
  | serveStdio
deriving Repr, DecidableEq

/-- MCPServerOptions (src/unnamed/part_000): the command-line option
values plus the static configuration merged by Complete/loadFlags. -/
structure MCPServerOptions where
  Version : Bool := false
  LogLevel : Int := 0
  SSEPort : Int := 0
  HttpPort : Int := 0
  SSEBaseUrl : String := ""
  Kubeconfig : String := ""
  Profile : String := "full"
  ListOutput : String := "table"
  ReadOnly : Bool := false
  DisableDestructive : Bool := false
  ConfigPath : String := ""
  StaticConfig : StaticConfig := {}
deriving Repr, DecidableEq

/-- MCPServerOptions.Run (src/unnamed/part_000) as an action trace: it
resolves the profile name, then the output-format name, failing fast on
either; then prints the version and stops if the version flag is set;
then constructs the MCP server (which may itself fail, abstracted by
newServerOk); then starts the configured transport bindings. The
profile- and output-name resolvers live outside src/ and are passed in
as functions returning an Option of the resolved name. -/
def Run (m : MCPServerOptions)
    (profileFromString : String → Option String)
    (outputFromString : String → Option String)
    (newServerOk : Bool) : Except String (List RunAct) :=
  match profileFromString m.Profile with
  | none => Except.error ("Invalid profile name: " ++ m.Profile)
  | some _ =>
    match outputFromString m.StaticConfig.ListOutput with
    | none => Except.error ("Invalid output name: " ++ m.StaticConfig.ListOutput)
    | some _ =>
      if m.Version then Except.ok [RunAct.printVersion]
      else if !newServerOk then Except.error "Failed to initialize MCP server"
      else Except.ok ([RunAct.constructServer]
        ++ (if m.StaticConfig.SSEPort > 0 then [RunAct.serveSse] else [])
        ++ (if m.StaticConfig.HTTPPort > 0 then [RunAct.serveHttp] else [])
        ++ [RunAct.serveStdio])

/-- C6: when the profile name or the output-format name does not
resolve, Run returns an error and therefore produces no action trace:
the server is never constructed and no transport binding starts. -/
theorem c6_run_invalid_config_fails_before_serving (m : MCPServerOptions)
    (profileFromString outputFromString : String → Option String) (newServerOk : Bool)
    (h : profileFromString m.Profile = none ∨
      outputFromString m.StaticConfig.ListOutput = none) :
    exceptIsOk (Run m profileFromString outputFromString newServerOk) = false := by
  rcases h with hp | ho
  · simp [Run, hp, exceptIsOk]
  · cases hq : profileFromString m.Profile <;>
      simp [Run, hq, ho, exceptIsOk]

/-- C6 witness: with a resolver that rejects every profile name, Run on
the default options fails. -/
theorem c6_run_invalid_config_fails_before_serving_witness :
    exceptIsOk (Run {} (fun _ => none) (fun s => some s) true) = false :=
  c6_run_invalid_config_fails_before_serving {} (fun _ => none) (fun s => some s) true
    (Or.inl rfl)

/-- The result returned to a caller for one tool call: the textual
payload and whether the call failed. -/
structure CallToolResult where
  text : String
  isError : Bool
deriving Repr, DecidableEq

/-- Modelled from the spec: NewTextResult (pkg/mcp, not under src/)
builds a failed-call result carrying the error text when an error is
present, and a success result carrying the content otherwise. -/
def NewTextResult (content : String) (err : Option String) : CallToolResult :=
  match err with
  | some e => { text := e, isError := true }
  | none => { text := content, isError := false }

/-- Server.openShiftClusterVersion (pkg/mcp/openshift.go): wraps
GetClusterVersion; on failure it returns NewTextResult of the wrapped
error text paired with no transport-level error, on success the version
paired with no transport-level error. The underlying operation outcome
is passed in as an Except value. -/
def openShiftClusterVersion (getVersion : Except String String) :
    CallToolResult × Option String :=
  match getVersion with
  | Except.error e =>
    (NewTextResult "" (some ("failed to get OpenShift cluster version: " ++ e)), none)
  | Except.ok v => (NewTextResult v none, none)

/-- C7: when the underlying operation fails, the handler returns a
failed-call result carrying the error text together with a nil
transport-level error, so the failure is delivered as a normal result. -/
theorem c7_handler_failure_is_result_not_transport_error (e : String) :
    (openShiftClusterVersion (Except.error e)).2 = none ∧
    (openShiftClusterVersion (Except.error e)).1.isError = true ∧
    (openShiftClusterVersion (Except.error e)).1.text =
      "failed to get OpenShift cluster version: " ++ e :=
  ⟨rfl, rfl, rfl⟩

/-- A dynamic JSON-like value, mirroring the interface values held by an
unstructured Kubernetes object in Go. Maps are association lists keyed
by strings; `other` stands for every value that is neither a string,
bool, list nor map (numbers, null, ...), on which the type assertions in
the sources all fail. -/
inductive JValue where
  | s : String → JValue
  | b : Bool → JValue
  | arr : List JValue → JValue
  | obj : List (String × JValue) → JValue
  | other : JValue

/-- Go type assertion v.(string). -/
def JValue.asString : JValue → Option String
  | JValue.s v => some v
  | _ => none

/-- Go type assertion v.(bool). -/
def JValue.asBool : JValue → Option Bool
  | JValue.b v => some v
  | _ => none

/-- Go type assertion v.([]interface\x7b\x7d). -/
def JValue.asArr : JValue → Option (List JValue)
  | JValue.arr v => some v
  | _ => none

/-- Go type assertion v.(map[string]interface\x7b\x7d). -/
def JValue.asObj : JValue → Option (List (String × JValue))
  | JValue.obj v => some v
  | _ => none

/-- The unstructured payload of a fetched resource (obj.Object in Go): a
string-keyed map of dynamic values. -/
def UnstructuredObj : Type := List (String × JValue)

/-- Go map indexing followed by the map type assertion:
m[k].(map[string]interface\x7b\x7d); none both when the key is absent
(Go yields nil) and when the value is not a map. -/
def lookupObj (m : List (String × JValue)) (k : String) :
    Option (List (String × JValue)) :=
  (List.lookup k m).bind JValue.asObj

/-- Go map indexing followed by the string type assertion combined with
the non-emptiness check used throughout cluster_version.go: some v
exactly when m[k] is a string and v is not empty. -/
def lookupNonEmptyString (m : List (String × JValue)) (k : String) : Option String :=
  match (List.lookup k m).bind JValue.asString with
  | some v => if v = "" then none else some v
  | none => none

/-- The status.desired.version extraction of GetClusterVersion
(pkg/openshift/updates/cluster_version.go): some v exactly when
status.desired is a map whose version entry is a non-empty string. -/
def desiredVersion (status : List (String × JValue)) : Option String :=
  match lookupObj status "desired" with
  | some desired => lookupNonEmptyString desired "version"
  | none => none

/-- The status.history[0].version fallback of GetClusterVersion
(pkg/openshift/updates/cluster_version.go): some v exactly when
status.history is a non-empty list whose first entry is a map whose
version entry is a non-empty string. -/
def historyFirstVersion (status : List (String × JValue)) : Option String :=
  match (List.lookup "history" status).bind JValue.asArr with
  | some (entry :: _) =>
    match entry.asObj with
    | some em => lookupNonEmptyString em "version"
    | none => none
  | _ => none

/-- GetClusterVersion (pkg/openshift/updates/cluster_version.go): the
resource fetch outcome is passed in as an Except of the unstructured
payload. On fetch failure the error is wrapped; a payload without a
status map is an error; then status.desired.version is preferred,
status.history[0].version is the fallback, and when neither yields a
non-empty string an error is returned. -/
def GetClusterVersion (fetch : Except String (List (String × JValue))) :
    Except String String :=
  match fetch with
  | Except.error e =>
    Except.error ("cannot retrieve OpenShift ClusterVersion resource: " ++ e)
  | Except.ok o =>
    match lookupObj o "status" with
    | none => Except.error "unexpected ClusterVersion payload: missing status"
    | some status =>
      match desiredVersion status with
      | some v => Except.ok v
      | none =>
        match historyFirstVersion status with
        | some v => Except.ok v
        | none => Except.error "version field not found in ClusterVersion status"

/-- C8: GetClusterVersion fails on fetch failure and on a missing status
map; with a status map it returns status.desired.version when that is a
non-empty string, falls back to status.history[0].version when the
history list is non-empty and that is a non-empty string, and fails
otherwise. The last two conjuncts characterise the two extractions in
terms of the payload fields. -/
theorem c8_get_cluster_version_fallback_chain :
    (∀ e, exceptIsOk (GetClusterVersion (Except.error e)) = false) ∧
    (∀ o, lookupObj o "status" = none →
      exceptIsOk (GetClusterVersion (Except.ok o)) = false) ∧
    (∀ o status v, lookupObj o "status" = some status →
      desiredVersion status = some v →
      GetClusterVersion (Except.ok o) = Except.ok v) ∧
    (∀ o status v, lookupObj o "status" = some status →
      desiredVersion status = none → historyFirstVersion status = some v →
      GetClusterVersion (Except.ok o) = Except.ok v) ∧
    (∀ o status, lookupObj o "status" = some status →
      desiredVersion status = none → historyFirstVersion status = none →
      exceptIsOk (GetClusterVersion (Except.ok o)) = false) ∧
    (∀ status v, desiredVersion status = some v ↔
      ((lookupObj status "desired").bind
        (fun d => (List.lookup "version" d).bind JValue.asString) = some v ∧ v ≠ "")) ∧
    (∀ status v, historyFirstVersion status = some v ↔
      ∃ entry rest em, (List.lookup "history" status).bind JValue.asArr = some (entry :: rest) ∧
        entry.asObj = some em ∧
        (List.lookup "version" em).bind JValue.asString = some v ∧ v ≠ "") := by
  refine ⟨fun e => rfl, ?_, ?_, ?_, ?_, ?_, ?_⟩
  · intro o h
    simp [GetClusterVersion, h, exceptIsOk]
  · intro o status v h hd
    simp [GetClusterVersion, h, hd]
  · intro o status v h hd hh
    simp [GetClusterVersion, h, hd, hh]
  · intro o status h hd hh
    simp [GetClusterVersion, h, hd, hh, exceptIsOk]
  · intro status v
    unfold desiredVersion
    cases hd : lookupObj status "desired" with
    | none => simp [hd]
    | some d =>
      unfold lookupNonEmptyString
      cases hv : (List.lookup "version" d).bind JValue.asString with
      | none => simp [hv]
      | some w =>
        by_cases hw : w = ""
        · simp [hv, hw]
          exact fun h => h.symm
        · simp [hv, hw]
          intro h
          subst h
          exact hw
  · intro status v
    unfold historyFirstVersion
    cases hh : (List.lookup "history" status).bind JValue.asArr with
    | none => simp [hh]
    | some l =>
      cases l with
      | nil => simp [hh]
      | cons entry rest =>
        cases he : entry.asObj with
        | none => simp [hh, he]
        | some em =>
          unfold lookupNonEmptyString
          cases hv : (List.lookup "version" em).bind JValue.asString with
          | none => simp [hh, he, hv]
          | some w =>
            by_cases hw : w = ""
            · simp [hh, he, hv, hw]
              exact fun h => h.symm
            · simp [hh, he, hv, hw]
              intro h
              subst h
              exact hw

/-- A concrete ClusterVersion payload whose status carries a desired
version, used to instantiate C8. -/
def clusterVersionPayloadExample : List (String × JValue) :=
  [("status", JValue.obj
    [("desired", JValue.obj [("version", JValue.s "4.15.9")]),
     ("history", JValue.arr [JValue.obj [("version", JValue.s "4.15.8")]])])]

/-- C8 witness: on the concrete payload the desired version 4.15.9 is
returned. -/
theorem c8_get_cluster_version_fallback_chain_witness :
    GetClusterVersion (Except.ok clusterVersionPayloadExample) = Except.ok "4.15.9" :=
  c8_get_cluster_version_fallback_chain.2.2.1 clusterVersionPayloadExample
    [("desired", JValue.obj [("version", JValue.s "4.15.9")]),
     ("history", JValue.arr [JValue.obj [("version", JValue.s "4.15.8")]])]
    "4.15.9" rfl rfl

/-- Update (pkg/openshift/updates): an available update reported by the
ClusterVersion resource, with a version and a possibly empty image. -/
structure Update where
  Version : String
  Image : String
deriving Repr, DecidableEq

/-- The loop body of GetAvailableUpdates (src/unnamed/part_001) on one
availableUpdates entry: skip entries that are not maps, read the version
and image strings (defaulting to empty when absent or not a string), and
keep the entry only when the version is non-empty. -/
def convertUpdate (entry : JValue) : Option Update :=
  match entry.asObj with
  | none => none
  | some m =>
    let v := ((List.lookup "version" m).bind JValue.asString).getD ""
    let img := ((List.lookup "image" m).bind JValue.asString).getD ""
    if v = "" then none else some { Version := v, Image := img }

/-- GetAvailableUpdates (src/unnamed/part_001): the resource fetch
outcome is passed in as an Except of the unstructured payload. Fetch
failure and a missing status map are errors; a missing or non-list
status.availableUpdates yields the empty list; otherwise each entry is
converted by convertUpdate, skipping malformed ones and preserving
order. -/
def GetAvailableUpdates (fetch : Except String (List (String × JValue))) :
    Except String (List Update) :=
  match fetch with
  | Except.error e =>
    Except.error ("cannot retrieve OpenShift ClusterVersion resource: " ++ e)
  | Except.ok o =>
    match lookupObj o "status" with
    | none => Except.error "unexpected ClusterVersion payload: missing status"
    | some status =>
      match (List.lookup "availableUpdates" status).bind JValue.asArr with
      | none => Except.ok []
      | some entries => Except.ok (entries.filterMap convertUpdate)

/-- C9: GetAvailableUpdates fails exactly on fetch failure or a missing
status map; an absent or non-list availableUpdates field yields the
empty list without error; otherwise exactly the entries that are maps
with a non-empty version string are returned, in order. The final
conjunct characterises the kept entries. -/
theorem c9_get_available_updates_skips_malformed :
    (∀ e, exceptIsOk (GetAvailableUpdates (Except.error e)) = false) ∧
    (∀ o, lookupObj o "status" = none →
      exceptIsOk (GetAvailableUpdates (Except.ok o)) = false) ∧
    (∀ o status, lookupObj o "status" = some status →
      (List.lookup "availableUpdates" status).bind JValue.asArr = none →
      GetAvailableUpdates (Except.ok o) = Except.ok []) ∧
    (∀ o status entries, lookupObj o "status" = some status →
      (List.lookup "availableUpdates" status).bind JValue.asArr = some entries →
      GetAvailableUpdates (Except.ok o) = Except.ok (entries.filterMap convertUpdate)) ∧
    (∀ entry u, convertUpdate entry = some u ↔
      ∃ em, entry.asObj = some em ∧
        (List.lookup "version" em).bind JValue.asString = some u.Version ∧
        u.Version ≠ "" ∧
        u.Image = ((List.lookup "image" em).bind JValue.asString).getD "") := by
  refine ⟨fun e => rfl, ?_, ?_, ?_, ?_⟩
  · intro o h
    simp [GetAvailableUpdates, h, exceptIsOk]
  · intro o status h ha
    simp [GetAvailableUpdates, h, ha]
  · intro o status entries h ha
    simp [GetAvailableUpdates, h, ha]
  · intro entry u
    unfold convertUpdate
    cases he : entry.asObj with
    | none => simp [he]
    | some em =>
      cases hv : (List.lookup "version" em).bind JValue.asString with
      | none =>
        simp [hv]
      | some w =>
        by_cases hw : w = ""
        · simp [hv, hw]
          intro h1 h2
          exact absurd h1.symm h2
        · simp [hv, hw]
          constructor
          · intro h
            subst h
            simp [hw]
          · intro ⟨h1, h2, h3⟩
            rw [h1, ← h3]

/-- A concrete ClusterVersion payload with one well-formed available
update, one malformed (non-map) entry and one version-less entry, used
to instantiate C9. -/
def availableUpdatesPayloadExample : List (String × JValue) :=
  [("status", JValue.obj
    [("availableUpdates", JValue.arr
      [JValue.obj [("version", JValue.s "4.16.0"), ("image", JValue.s "quay.example/release:4.16.0")],
       JValue.s "malformed",
       JValue.obj [("image", JValue.s "quay.example/release:unknown")]])])]

/-- C9 witness: on the concrete payload only the well-formed entry is
returned. -/
theorem c9_get_available_updates_skips_malformed_witness :
    GetAvailableUpdates (Except.ok availableUpdatesPayloadExample) =
      Except.ok [{ Version := "4.16.0", Image := "quay.example/release:4.16.0" }] :=
  c9_get_available_updates_skips_malformed.2.2.2.1 availableUpdatesPayloadExample
    [("availableUpdates", JValue.arr
      [JValue.obj [("version", JValue.s "4.16.0"), ("image", JValue.s "quay.example/release:4.16.0")],
       JValue.s "malformed",
       JValue.obj [("image", JValue.s "quay.example/release:unknown")]])]
    [JValue.obj [("version", JValue.s "4.16.0"), ("image", JValue.s "quay.example/release:4.16.0")],
     JValue.s "malformed",
     JValue.obj [("image", JValue.s "quay.example/release:unknown")]]
    rfl rfl

/-- Which command-line flags were explicitly set on the command line
(cobra flag .Changed), one per flag read by loadFlags
(src/unnamed/part_000). -/
structure FlagsChanged where
  logLevel : Bool := false
  ssePort : Bool := false
  httpPort : Bool := false
  sseBaseUrl : Bool := false
  kubeconfig : Bool := false
  listOutput : Bool := false
  readOnly : Bool := false
  disableDestructive : Bool := false
deriving Repr, DecidableEq

/-- MCPServerOptions.loadFlags (src/unnamed/part_000): starting from the
static configuration loaded from the config file, overwrite each field
with the option value when the corresponding flag was explicitly set;
ListOutput is additionally overwritten when the config file left it
empty. The Go method mutates m.StaticConfig in place; the embedding
returns the updated configuration. -/
def loadFlags (m : MCPServerOptions) (ch : FlagsChanged) : StaticConfig :=
  let sc := m.StaticConfig
  let sc := if ch.logLevel then { sc with LogLevel := m.LogLevel } else sc
  let sc := if ch.ssePort then { sc with SSEPort := m.SSEPort } else sc
  let sc := if ch.httpPort then { sc with HTTPPort := m.HttpPort } else sc
  let sc := if ch.sseBaseUrl then { sc with SSEBaseURL := m.SSEBaseUrl } else sc
  let sc := if ch.kubeconfig then { sc with KubeConfig := m.Kubeconfig } else sc
  let sc := if ch.listOutput || sc.ListOutput == "" then { sc with ListOutput := m.ListOutput } else sc
  let sc := if ch.readOnly then { sc with ReadOnly := m.ReadOnly } else sc
  let sc := if ch.disableDestructive then { sc with DisableDestructive := m.DisableDestructive } else sc
  sc

/-- C10: loadFlags overwrites a field exactly when its flag was
explicitly set, except that ListOutput is also overwritten when the
config file left it empty; every field without a changed flag (including
the tool allow/deny lists, which have no flag at all) keeps the value
loaded from the config file. -/
theorem c10_load_flags_frame (m : MCPServerOptions) (ch : FlagsChanged) :
    loadFlags m ch =
      { LogLevel := if ch.logLevel then m.LogLevel else m.StaticConfig.LogLevel,
        SSEPort := if ch.ssePort then m.SSEPort else m.StaticConfig.SSEPort,
        HTTPPort := if ch.httpPort then m.HttpPort else m.StaticConfig.HTTPPort,
        SSEBaseURL := if ch.sseBaseUrl then m.SSEBaseUrl else m.StaticConfig.SSEBaseURL,
        KubeConfig := if ch.kubeconfig then m.Kubeconfig else m.StaticConfig.KubeConfig,
        ListOutput := if ch.listOutput || m.StaticConfig.ListOutput == ""
          then m.ListOutput else m.StaticConfig.ListOutput,
        ReadOnly := if ch.readOnly then m.ReadOnly else m.StaticConfig.ReadOnly,
        DisableDestructive := if ch.disableDestructive
          then m.DisableDestructive else m.StaticConfig.DisableDestructive,
        EnabledTools := m.StaticConfig.EnabledTools,
        DisabledTools := m.StaticConfig.DisabledTools } := by
  obtain ⟨ll, sp, hp, sb, kc, lo, ro, dd⟩ := ch
  cases hlo : (m.StaticConfig.ListOutput == "") <;>
    cases ll <;> cases sp <;> cases hp <;> cases sb <;> cases kc <;> cases lo <;>
      cases ro <;> cases dd <;>
    simp [loadFlags, hlo]

end KubernetesMcp
